import Mathlib

/-!
Verification development for the parallel PDF web crawler.

The definitions below are shallow embeddings of the Rust sources:
  * `src/pdf_downloader/src/main.rs` (namespace `PdfDl`)
  * `src/web_crawler_pdf/main.rs`    (namespace `WebCrawler`)

Conventions of the embedding:
  * Byte strings (`&[u8]`, file contents, HTTP bodies) are `List Nat` with
    each element a byte value.  Rust `String::from_utf8_lossy` followed by
    ASCII-literal substring tests is modelled directly on the bytes: the
    lossy decoding maps every ASCII byte to itself, so occurrence of an
    ASCII pattern is preserved in both directions; `str::to_lowercase` is
    modelled byte-wise for the ASCII range the patterns live in.
  * Machine integers are `Nat` with explicit `% 2 ^ 64` where the Rust
    `AtomicU64::fetch_add` / `fetch_sub` wrap.
  * Network effects are oracles passed in as function arguments; each
    embedded operation returns, alongside its result, a trace of the
    effects it performed (probes issued, files created or removed), so
    that effect-freedom claims are statable.
-/

set_option maxRecDepth 40000

namespace Spec2Proof

/-! ## Byte-string helpers (shared by both binaries) -/

/-- ASCII lowercase of one byte; models `to_lowercase` on the ASCII range. -/
def asciiLower (b : Nat) : Nat := if 65 ≤ b ∧ b ≤ 90 then b + 32 else b

/-- Byte-wise lowercase of a byte string. -/
def lowerNats (l : List Nat) : List Nat := l.map asciiLower

/-- The byte string of an ASCII string literal. -/
def strNats (s : String) : List Nat := s.toList.map Char.toNat

/-- Does `l` start with `pat`?  Models `starts_with` on byte strings. -/
def startsWithNats : List Nat → List Nat → Bool
  | [], _ => true
  | _ :: _, [] => false
  | p :: ps, x :: xs => p == x && startsWithNats ps xs

/-- Does `l` contain `pat` as a contiguous substring?  Models `contains`. -/
def containsNats (l pat : List Nat) : Bool :=
  match l with
  | [] => pat.isEmpty
  | _ :: xs => startsWithNats pat l || containsNats xs pat

/-- The last `k` bytes of `l` (all of `l` if it is shorter). -/
def lastNats (k : Nat) (l : List Nat) : List Nat := l.drop (l.length - k)

/-- ASCII whitespace, as removed by `str::trim_start` on ASCII content. -/
def isWsNat (b : Nat) : Bool := b == 32 || b == 9 || b == 10 || b == 11 || b == 12 || b == 13

/-! ## pdf_downloader/src/main.rs -/

namespace PdfDl

/-- PDF classification verdict (`enum PdfKind`). -/
inductive PdfKind where
  | Yes
  | No
deriving DecidableEq

/-! ### PackedCounters

Four 16-bit counters packed into one `AtomicU64`.  The word is a `Nat`
below `2 ^ 64`; `fetch_add`/`fetch_sub` wrap modulo `2 ^ 64`. -/

namespace PackedCounters

/-- const DOWNLOADED_MASK: u64 = 0x0000_0000_0000_FFFF -/
def DOWNLOADED_MASK : Nat := 0xFFFF

/-- const FAILED_MASK: u64 = 0x0000_0000_FFFF_0000 -/
def FAILED_MASK : Nat := 0xFFFF0000

/-- const QUEUED_MASK: u64 = 0x0000_FFFF_0000_0000 -/
def QUEUED_MASK : Nat := 0xFFFF00000000

/-- const CACHE_HITS_MASK: u64 = 0xFFFF_0000_0000_0000 -/
def CACHE_HITS_MASK : Nat := 0xFFFF000000000000

/-- const DOWNLOADED_SHIFT: u64 = 0 -/
def DOWNLOADED_SHIFT : Nat := 0

/-- const FAILED_SHIFT: u64 = 16 -/
def FAILED_SHIFT : Nat := 16

/-- const QUEUED_SHIFT: u64 = 32 -/
def QUEUED_SHIFT : Nat := 32

/-- const CACHE_HITS_SHIFT: u64 = 48 -/
def CACHE_HITS_SHIFT : Nat := 48

/-- fetch_add(1 << DOWNLOADED_SHIFT), wrapping mod 2^64. -/
def inc_downloaded (w : Nat) : Nat := (w + (1 <<< DOWNLOADED_SHIFT)) % 2 ^ 64

/-- fetch_add(1 << FAILED_SHIFT), wrapping mod 2^64. -/
def inc_failed (w : Nat) : Nat := (w + (1 <<< FAILED_SHIFT)) % 2 ^ 64

/-- fetch_add(1 << QUEUED_SHIFT), wrapping mod 2^64. -/
def inc_queued (w : Nat) : Nat := (w + (1 <<< QUEUED_SHIFT)) % 2 ^ 64

/-- fetch_sub(1 << QUEUED_SHIFT), wrapping mod 2^64. -/
def dec_queued (w : Nat) : Nat := (w + (2 ^ 64 - (1 <<< QUEUED_SHIFT))) % 2 ^ 64

/-- fetch_add(1 << CACHE_HITS_SHIFT), wrapping mod 2^64. -/
def inc_cache_hits (w : Nat) : Nat := (w + (1 <<< CACHE_HITS_SHIFT)) % 2 ^ 64

/-- fn get_counts: ((val & MASK) >> SHIFT) for each of the four fields. -/
def get_counts (w : Nat) : Nat × Nat × Nat × Nat :=
  ((w &&& DOWNLOADED_MASK) >>> DOWNLOADED_SHIFT,
   (w &&& FAILED_MASK) >>> FAILED_SHIFT,
   (w &&& QUEUED_MASK) >>> QUEUED_SHIFT,
   (w &&& CACHE_HITS_MASK) >>> CACHE_HITS_SHIFT)

end PackedCounters

/-! ### CrawlerConfig

Durations are in seconds except `retry_delay_ms` (milliseconds in the
source: `Duration::from_millis(500)`). -/

structure CrawlerConfig where
  download_dir : String
  concurrent_crawlers : Nat
  concurrent_checks : Nat
  concurrent_downloads : Nat
  pdf_header_check_size : Nat
  cache_capacity : Nat
  cache_ttl : Nat
  negative_cache_ttl : Nat
  page_request_timeout : Nat
  pdf_queue_buffer : Nat
  crawl_queue_buffer : Nat
  host_rate_limit : Nat
  global_socket_limit : Nat
  download_timeout : Nat
  max_retries : Nat
  retry_delay_ms : Nat
  connection_pool_size : Nat
  resume : Bool
deriving DecidableEq

/-- impl Default for CrawlerConfig. -/
def CrawlerConfig.default : CrawlerConfig :=
  { download_dir := "downloaded_pdfs"
    concurrent_crawlers := 30
    concurrent_checks := 10
    concurrent_downloads := 4
    pdf_header_check_size := 1024
    cache_capacity := 120000
    cache_ttl := 3600
    negative_cache_ttl := 30
    page_request_timeout := 12
    pdf_queue_buffer := 2500
    crawl_queue_buffer := 10000
    host_rate_limit := 20
    global_socket_limit := 5000
    download_timeout := 120
    max_retries := 2
    retry_delay_ms := 500
    connection_pool_size := 300
    resume := true }

/-! ### The moka verdict cache

`ParallelPDFCrawler::new` builds one cache:
`Cache::builder().max_capacity(cache_capacity).time_to_live(cache_ttl).build()`.
A moka cache built this way attaches the builder's single `time_to_live`
to every inserted entry, whatever its value. -/

structure PdfCacheConfig where
  max_capacity : Nat
  time_to_live : Nat
deriving DecidableEq

/-- The cache constructed in `ParallelPDFCrawler::new`. -/
def buildPdfCache (cfg : CrawlerConfig) : PdfCacheConfig :=
  { max_capacity := cfg.cache_capacity, time_to_live := cfg.cache_ttl }

/-- Expiry attached to an entry inserted by `pdf_cache.insert(url, kind)`:
moka applies the builder-level `time_to_live` to every entry, so the
verdict plays no role. -/
def insertedEntryTTL (cache : PdfCacheConfig) (_kind : PdfKind) : Nat :=
  cache.time_to_live

/-! ### URL identity hash (fn hash_url) -/

/-- str::trim_end_matches('/'): removes every trailing '/' (byte 47). -/
def trimEndSlashes (l : List Nat) : List Nat :=
  (l.reverse.dropWhile (fun b => b == 47)).reverse

/-- The canonical form hashed by `hash_url`:
`url.as_str().trim_end_matches('/').to_lowercase()`. -/
def normalizeUrl (l : List Nat) : List Nat := lowerNats (trimEndSlashes l)

/-- fn hash_url, with the deterministic 64-bit hasher (`DefaultHasher`)
abstracted as a function `h` of the canonical byte string. -/
def hash_url (h : List Nat → Nat) (l : List Nat) : Nat := h (normalizeUrl l)

/-- Canonical form described by the claim (C7): lowercase the full URL and
trim a SINGLE trailing '/'.  Written from the claim's words, for
comparison with `normalizeUrl` above. -/
def claimTrimOneSlash (l : List Nat) : List Nat :=
  match l.getLast? with
  | some 47 => l.dropLast
  | _ => l

/-- The claim-side canonicalization (C7). -/
def claimNormalizeUrl (l : List Nat) : List Nat := lowerNats (claimTrimOneSlash l)

/-! ### PDFValidator -/

namespace PDFValidator

/-- u8::is_ascii_digit. -/
def isAsciiDigit (b : Nat) : Bool := 48 ≤ b && b ≤ 57

/-- fn validate_header(data: &[u8]) -> bool.  `data` is the buffer read
from the file (16 bytes in `validate_complete_pdf`). -/
def validate_header (data : List Nat) : Bool :=
  if data.length < 8 then false
  else if startsWithNats (strNats "%PDF-") data then
    -- version_part = &data[5..]; with data.len() >= 8 it has >= 3 bytes
    if data.length - 5 ≥ 3 then
      isAsciiDigit (data.getD 5 0) && (data.getD 6 0 == 46) && isAsciiDigit (data.getD 7 0)
    else
      startsWithNats (strNats "%PDF") data
  else
    startsWithNats (strNats "%PDF") data

/-- One window test of `check_eof_marker`: the last `size` bytes contain
"%%EOF" or "startxref". -/
def eofWindowHit (file : List Nat) (size : Nat) : Bool :=
  containsNats (lastNats size file) (strNats "%%EOF") ||
  containsNats (lastNats size file) (strNats "startxref")

/-- The for-loop of `check_eof_marker` over `search_sizes`, with its
early `return Ok(true)`: a window is only read when `file_size >= size`. -/
def check_eof_sizes (file : List Nat) : List Nat → Bool
  | [] => false
  | s :: rest =>
    if s ≤ file.length then
      if eofWindowHit file s then true else check_eof_sizes file rest
    else
      check_eof_sizes file rest

/-- fn check_eof_marker: search_sizes = [32, 64, 128, 256]. -/
def check_eof_marker (file : List Nat) : Bool :=
  check_eof_sizes file [32, 64, 128, 256]

/-- has_version: content.starts_with("%PDF") (case-sensitive). -/
def pdf_has_version (content : List Nat) : Bool :=
  startsWithNats (strNats "%PDF") content

/-- has_objects: lowercased content contains "obj" and "endobj". -/
def pdf_has_objects (content : List Nat) : Bool :=
  containsNats (lowerNats content) (strNats "obj") &&
  containsNats (lowerNats content) (strNats "endobj")

/-- has_xref: lowercased content contains "xref" or "xrefstm". -/
def pdf_has_xref (content : List Nat) : Bool :=
  containsNats (lowerNats content) (strNats "xref") ||
  containsNats (lowerNats content) (strNats "xrefstm")

/-- has_trailer: lowercased content contains "trailer" or "/root". -/
def pdf_has_trailer (content : List Nat) : Bool :=
  containsNats (lowerNats content) (strNats "trailer") ||
  containsNats (lowerNats content) (strNats "/root")

/-- has_startxref: lowercased content contains "startxref". -/
def pdf_has_startxref (content : List Nat) : Bool :=
  containsNats (lowerNats content) (strNats "startxref")

/-- has_pdf_keywords: "/catalog", "/pages", "/type" or "/font". -/
def pdf_has_keywords (content : List Nat) : Bool :=
  containsNats (lowerNats content) (strNats "/catalog") ||
  containsNats (lowerNats content) (strNats "/pages") ||
  containsNats (lowerNats content) (strNats "/type") ||
  containsNats (lowerNats content) (strNats "/font")

/-- fn validate_pdf_structure(content: &str) -> bool. -/
def validate_pdf_structure (content : List Nat) : Bool :=
  pdf_has_version content &&
    ((pdf_has_objects content && (pdf_has_xref content || pdf_has_trailer content)) ||
     (pdf_has_startxref content && pdf_has_keywords content) ||
     (pdf_has_xref content && pdf_has_trailer content))

/-- async fn validate_complete_pdf(file_path) -> Result of bool, with the
file's content given as the byte list `file`.  The early `Ok(false)`
returns of the source become the `false` branches; `read_exact` of the
16-byte header fails exactly when the file is shorter than 16 bytes. -/
def validate_complete_pdf (file : List Nat) : Bool :=
  let file_size := file.length
  if file_size < 100 then false
  else if file_size > 500000000 then false
  else if file_size < 16 then false
  else if !validate_header (file.take 16) then false
  else if !check_eof_marker file then false
  else
    let read_size := min file_size 1000000
    validate_pdf_structure (file.take read_size)

/-- fn is_likely_pdf_start(data: &[u8]) -> bool.  The window scan of the
source (`data.windows(4).any(|w| w == b"%PDF")`, only tried when
`data.len() >= 10`) is substring containment of "%PDF". -/
def is_likely_pdf_start (data : List Nat) : Bool :=
  if data.length < 4 then false
  else if startsWithNats (strNats "%PDF") data then true
  else if startsWithNats [0x25, 0x50, 0x44, 0x46] data then true
  else if data.length ≥ 10 && containsNats data (strNats "%PDF") then true
  else
    containsNats (lowerNats data) (strNats "pdf") &&
      (containsNats (lowerNats data) (strNats "obj") ||
       containsNats (lowerNats data) (strNats "stream") ||
       containsNats (lowerNats data) (strNats "catalog"))

/-- fn is_likely_html_or_xml(data: &[u8]) -> bool. -/
def is_likely_html_or_xml (data : List Nat) : Bool :=
  let ds := lowerNats data
  startsWithNats (strNats "<!doctype") (ds.dropWhile isWsNat) ||
  startsWithNats (strNats "<html") (ds.dropWhile isWsNat) ||
  startsWithNats (strNats "<?xml") (ds.dropWhile isWsNat) ||
  containsNats ds (strNats "<head>") ||
  containsNats ds (strNats "<body>") ||
  containsNats ds (strNats "<title>")

end PDFValidator

/-! ### Claim-side post-flight validation predicate (C5)

Written from the words of claim C5 (and spec section 4.7), to be compared
with the embedding `PDFValidator.validate_complete_pdf` above.  The
amended variant adds the third structural alternative present in the
source but absent from the claim. -/

/-- C5 claim: file size in the 100-byte to 500-MB window. -/
def claim_size_ok (file : List Nat) : Bool :=
  100 ≤ file.length && file.length ≤ 500000000

/-- C5 claim: the first 16 bytes look like a PDF header. -/
def claim_header_ok (file : List Nat) : Bool :=
  PDFValidator.validate_header (file.take 16)

/-- C5 claim: the last 32 to 256 bytes contain "%%EOF" or "startxref"
(one of the four windows that fit inside the file succeeds). -/
def claim_eof_ok (file : List Nat) : Bool :=
  [32, 64, 128, 256].any fun k =>
    k ≤ file.length && PDFValidator.eofWindowHit file k

/-- C5 claim: the first up-to-1-MB contains the version token and either
obj/endobj with (xref or trailer), or startxref with PDF keywords.  Note:
no third alternative. -/
def claim_structure_ok (file : List Nat) : Bool :=
  let content := file.take (min file.length 1000000)
  PDFValidator.pdf_has_version content &&
    ((PDFValidator.pdf_has_objects content &&
        (PDFValidator.pdf_has_xref content || PDFValidator.pdf_has_trailer content)) ||
     (PDFValidator.pdf_has_startxref content && PDFValidator.pdf_has_keywords content))

/-- Claim C5's validation predicate, as stated. -/
def claim_valid_pdf (file : List Nat) : Bool :=
  claim_size_ok file && claim_header_ok file && claim_eof_ok file && claim_structure_ok file

/-- Amended structural check: the source also accepts xref together with
trailer, without obj/endobj. -/
def amended_structure_ok (file : List Nat) : Bool :=
  let content := file.take (min file.length 1000000)
  PDFValidator.pdf_has_version content &&
    ((PDFValidator.pdf_has_objects content &&
        (PDFValidator.pdf_has_xref content || PDFValidator.pdf_has_trailer content)) ||
     (PDFValidator.pdf_has_startxref content && PDFValidator.pdf_has_keywords content) ||
     (PDFValidator.pdf_has_xref content && PDFValidator.pdf_has_trailer content))

/-- The amended C5 predicate. -/
def amended_valid_pdf (file : List Nat) : Bool :=
  claim_size_ok file && claim_header_ok file && claim_eof_ok file && amended_structure_ok file

/-- A 100-byte file accepted by `validate_complete_pdf` but rejected by
the claim's two-alternative structural test: header and "%%EOF" present,
"xref" and "trailer" present, but no "endobj" and no "startxref". -/
def pdfFile100 : List Nat :=
  strNats "%PDF-1.4 xref trailer" ++ List.replicate 74 65 ++ strNats "%%EOF"

/-! ### The five-stage classifier (async fn is_pdf_link_optimized)

The static MIME set and magic-byte table are embedded verbatim; the three
regular expressions and the shared maps are oracles in `ClassifierEnv`
(the regex engine, the moka cache and the DashMap are external crates):
  * `cache`              — `pdf_cache.get(url)`
  * `url_pattern_match`  — `PDF_URL_PATTERNS.iter().any(|re| re.is_match(url))`
  * `clue_regex_match`   — `PDF_CLUE_REGEX.is_match(url)`
  * `anchor_text`        — `anchor_text_map.get(url)`
  * `anchor_regex_match` — `ANCHOR_TEXT_REGEX.is_match(text)`
  * `head_mime_essence`  — stage-4 HEAD within 3 s: `some` essence when the
    request succeeded and the Content-Type parsed as a MIME, else `none`
  * `range_first_bytes`  — stage-5 ranged GET within 3 s: `some` body bytes
    when the request succeeded with a success/206 status, else `none` -/

/-- static EXTRA_PDF_MIME (the stage-4 MIME set). -/
def EXTRA_PDF_MIME : List String :=
  ["application/pdf", "application/x-pdf", "application/acrobat",
   "applications/vnd.pdf", "text/pdf", "text/x-pdf", "binary/pdf",
   "application/octet-stream"]

/-- static MAGIC_PDF (the stage-5 magic-byte prefixes). -/
def MAGIC_PDF : List (List Nat) :=
  [strNats "%PDF-1.0", strNats "%PDF-1.1", strNats "%PDF-1.2",
   strNats "%PDF-1.3", strNats "%PDF-1.4", strNats "%PDF-1.5",
   strNats "%PDF-1.6", strNats "%PDF-1.7", strNats "%PDF-2.0",
   strNats "%PDF"]

/-- The stage-5 magic-byte test:
`MAGIC_PDF.iter()` with `chunk.starts_with(magic)`, breaking on the
first hit. -/
def magicHit (chunk : List Nat) : Bool :=
  MAGIC_PDF.any (fun magic => startsWithNats magic chunk)

/-- Oracles for one classification call (see the section comment). -/
structure ClassifierEnv where
  cache : String → Option PdfKind
  url_pattern_match : String → Bool
  clue_regex_match : String → Bool
  anchor_text : String → Option String
  anchor_regex_match : String → Bool
  head_mime_essence : String → Option String
  range_first_bytes : String → Option (List Nat)

/-- Result of `is_pdf_link_optimized` together with the effects the call
performed: which stages were evaluated, whether the two network probes
were issued, and what was inserted into the cache before returning. -/
structure ClassifyTrace where
  verdict : PdfKind
  cache_hit : Bool
  stage1_run : Bool
  stage2_run : Bool
  stage3_run : Bool
  stage4_probe : Bool
  stage5_probe : Bool
  cache_insert : Option PdfKind
deriving DecidableEq

/-- async fn is_pdf_link_optimized(&self, url).  Mirrors the source: a
cache hit returns at once; otherwise `kind` starts at `No`, each stage is
guarded by `kind == No`, and the final verdict is inserted into the cache
before the function returns. -/
def is_pdf_link_optimized (env : ClassifierEnv) (url : String) : ClassifyTrace :=
  match env.cache url with
  | some cached =>
    { verdict := cached, cache_hit := true,
      stage1_run := false, stage2_run := false, stage3_run := false,
      stage4_probe := false, stage5_probe := false, cache_insert := none }
  | none =>
    -- 1. URL heuristic
    let k1 : PdfKind := if env.url_pattern_match url then .Yes else .No
    -- 2. inline clue on the full URL string
    let k2 : PdfKind :=
      if k1 = .No then (if env.clue_regex_match url then .Yes else .No) else k1
    -- 3. parent-page anchor text
    let k3 : PdfKind :=
      if k2 = .No then
        match env.anchor_text url with
        | some text => if env.anchor_regex_match text then .Yes else .No
        | none => .No
      else k2
    -- 4. HEAD request, Content-Type essence against EXTRA_PDF_MIME
    let k4 : PdfKind :=
      if k3 = .No then
        match env.head_mime_essence url with
        | some essence => if EXTRA_PDF_MIME.contains essence then .Yes else .No
        | none => .No
      else k3
    -- 5. ranged GET, first bytes against MAGIC_PDF
    let k5 : PdfKind :=
      if k4 = .No then
        match env.range_first_bytes url with
        | some chunk => if magicHit chunk then .Yes else .No
        | none => .No
      else k4
    { verdict := k5, cache_hit := false,
      stage1_run := true, stage2_run := k1 = .No, stage3_run := k2 = .No,
      stage4_probe := k3 = .No, stage5_probe := k4 = .No,
      cache_insert := some k5 }

/-! ### The validated downloader (async fn download_pdf_with_validation) -/

/-- One item of `response.bytes_stream()`: a chunk or a read error. -/
inductive ChunkResult where
  | ok (bytes : List Nat)
  | err
deriving DecidableEq

/-- The response obtained from `client.get(url)...error_for_status()`. -/
structure HttpResponse where
  content_type : Option String
  content_length : Option Nat
  chunks : List ChunkResult
deriving DecidableEq

/-- One downloader invocation's inputs: the `resume` flag, the state of
the destination path, and the response (`none` when the initial request
or `error_for_status` failed, before any file was touched). -/
structure DownloadInput where
  resume : Bool
  final_exists : Bool
  existing_file : List Nat
  response : Option HttpResponse
deriving DecidableEq

/-- Outcome of a downloader invocation, with its filesystem effects. -/
structure DownloadOutcome where
  ok : Bool
  temp_created : Bool
  temp_left : Bool
  streamed : Bool
  final_written : Bool
  final_deleted : Bool
deriving DecidableEq

/-- How the streaming while-loop of the source ends. -/
inductive StreamEnd where
  | readErr
  | htmlAbort
  | headerAbort
  | tooLarge
  | finished (bytes : List Nat) (total : Nat)
deriving DecidableEq

/-- The `while let Some(chunk_result) = stream.next()` loop: first-chunk
HTML/XML and PDF-header screening, then write and the 100-MB ceiling.  A
chunk read error propagates with `?` (`.context("Failed to read chunk")`). -/
def download_stream : List ChunkResult → Bool → Nat → List Nat → StreamEnd
  | [], _, total, acc => .finished acc total
  | ChunkResult.err :: _, _, _, _ => .readErr
  | (ChunkResult.ok chunk) :: rest, first, total, acc =>
    if first && PDFValidator.is_likely_html_or_xml chunk then .htmlAbort
    else if first && !PDFValidator.is_likely_pdf_start chunk then .headerAbort
    else
      let total2 := total + chunk.length
      if total2 > 100000000 then .tooLarge
      else download_stream rest false total2 (acc ++ chunk)

/-- The downloader after the existing-file check; `final_deleted` records
whether the invalid existing file was removed. -/
def download_after_preflight (resp : HttpResponse) (final_deleted : Bool) : DownloadOutcome :=
  -- content-type rejection: contains "text/html" and not "pdf"
  let ctReject :=
    match resp.content_type with
    | some ct =>
      containsNats (strNats ct) (strNats "text/html") &&
        !containsNats (strNats ct) (strNats "pdf")
    | none => false
  if ctReject then
    { ok := false, temp_created := false, temp_left := false,
      streamed := false, final_written := false, final_deleted := final_deleted }
  else
    match download_stream resp.chunks true 0 [] with
    | .readErr =>
      -- the `?` on `chunk_result` propagates WITHOUT removing the temp file
      { ok := false, temp_created := true, temp_left := true,
        streamed := true, final_written := false, final_deleted := final_deleted }
    | .htmlAbort =>
      { ok := false, temp_created := true, temp_left := false,
        streamed := true, final_written := false, final_deleted := final_deleted }
    | .headerAbort =>
      { ok := false, temp_created := true, temp_left := false,
        streamed := true, final_written := false, final_deleted := final_deleted }
    | .tooLarge =>
      { ok := false, temp_created := true, temp_left := false,
        streamed := true, final_written := false, final_deleted := final_deleted }
    | .finished bytes total =>
      let sizeMismatch :=
        match resp.content_length with
        | some expected => total != expected
        | none => false
      if sizeMismatch then
        { ok := false, temp_created := true, temp_left := false,
          streamed := true, final_written := false, final_deleted := final_deleted }
      else if !PDFValidator.validate_complete_pdf bytes then
        { ok := false, temp_created := true, temp_left := false,
          streamed := true, final_written := false, final_deleted := final_deleted }
      else
        -- fsync then atomic rename .tmp -> final
        { ok := true, temp_created := true, temp_left := false,
          streamed := true, final_written := true, final_deleted := final_deleted }

/-- async fn download_pdf_with_validation(download_dir, client, url, resume).
Field by field the outcome records what the source did on that path: the
temp file is created just before streaming; `temp_left` is true exactly
when the function returns with the temp file still on disk. -/
def download_pdf_with_validation (inp : DownloadInput) : DownloadOutcome :=
  match inp.response with
  | none =>
    -- `client.get(..).send().await?.error_for_status()?` failed
    { ok := false, temp_created := false, temp_left := false,
      streamed := false, final_written := false, final_deleted := false }
  | some resp =>
    -- pre-flight: `if final_filepath.exists() && !resume`
    if inp.final_exists && !inp.resume then
      if PDFValidator.validate_complete_pdf inp.existing_file then
        { ok := true, temp_created := false, temp_left := false,
          streamed := false, final_written := false, final_deleted := false }
      else
        download_after_preflight resp true
    else
      download_after_preflight resp false

/-! ### Recursive crawl dispatch (async fn process_crawl_task_optimized) -/

/-- A URL with its host component (`Url::host_str`). -/
structure RUrl where
  host : Option String
  full : String
deriving DecidableEq

/-- struct CrawlTask. -/
structure RCrawlTask where
  url : RUrl
  depth : Nat
  retry_count : Nat
deriving DecidableEq

/-- The per-link dispatch loop of `process_crawl_task_optimized`: a `Yes`
verdict goes to the PDF queue; otherwise the link becomes a crawl task
only when its host equals `base_host` and the depth bound permits. -/
def dispatch_links (task : RCrawlTask) (base_host : String) (max_depth : Option Nat) :
    List (RUrl × PdfKind) → List RUrl × List RCrawlTask
  | [] => ([], [])
  | (url, kind) :: rest =>
    let tail := dispatch_links task base_host max_depth rest
    if kind = PdfKind.Yes then
      (url :: tail.1, tail.2)
    else if url.host = some base_host then
      let should_crawl :=
        match max_depth with
        | none => true
        | some m => task.depth + 1 < m
      if should_crawl then
        (tail.1, { url := url, depth := task.depth + 1, retry_count := 0 } :: tail.2)
      else tail
    else tail

/-- `crawl_and_download`: base_host = start_url.host_str().unwrap_or("unknown"). -/
def base_host_of (start : RUrl) : String := start.host.getD "unknown"

/-- Crawl-loop state: the pending queue, the PDFs sent for download, and
the log of every task enqueued by link discovery. -/
structure CrawlSim where
  queue : List RCrawlTask
  pdf_log : List RUrl
  enq_log : List RCrawlTask
deriving DecidableEq

/-- One worker turn: pop a task, extract-and-classify its links (the
oracle packages `extract_links_optimized` plus the dedup filter plus
`batch_check_pdf_links_optimized`), and dispatch them. -/
def crawl_step (oracle : RUrl → List (RUrl × PdfKind)) (base_host : String)
    (max_depth : Option Nat) (s : CrawlSim) : CrawlSim :=
  match s.queue with
  | [] => s
  | t :: rest =>
    let d := dispatch_links t base_host max_depth (oracle t.url)
    { queue := rest ++ d.2, pdf_log := s.pdf_log ++ d.1, enq_log := s.enq_log ++ d.2 }

/-- `n` worker turns. -/
def crawl_run (oracle : RUrl → List (RUrl × PdfKind)) (base_host : String)
    (max_depth : Option Nat) : Nat → CrawlSim → CrawlSim
  | 0, s => s
  | n + 1, s => crawl_run oracle base_host max_depth n (crawl_step oracle base_host max_depth s)

/-- The initial state seeded by `crawl_and_download`: the start URL at
depth 0, retry_count 0. -/
def initial_sim (start : RUrl) : CrawlSim :=
  { queue := [{ url := start, depth := 0, retry_count := 0 }], pdf_log := [], enq_log := [] }

end PdfDl

/-! ## web_crawler_pdf/main.rs -/

namespace WebCrawler

/-- struct PdfInfo. -/
structure PdfInfo where
  url : String
  source_page : String
  depth : Nat
  title : Option String
  size_hint : Option String
  content_type : Option String
  content_length : Option Nat
  discovered_at : String
  verified : Bool
deriving DecidableEq

/-- struct CrawlMetadata. -/
structure CrawlMetadata where
  start_url : String
  max_depth : Nat
  total_pages_crawled : Nat
  total_pdfs_found : Nat
  verified_pdfs : Nat
  failed_verifications : Nat
  crawl_timestamp : String
  status : String
  verification_enabled : Bool
deriving DecidableEq

/-- struct CrawlResults. -/
structure CrawlResults where
  metadata : CrawlMetadata
  pdfs : List PdfInfo
deriving DecidableEq

/-- enum WriterMessage. -/
inductive WriterMessage where
  | AddPdf (pdf : PdfInfo)
  | UpdateMetadata (pages_crawled : Nat) (status : String)
deriving DecidableEq

/-- The writer actor's in-memory state: the results plus the
`discovered_urls` set (modelled as a list with membership). -/
structure WriterState where
  results : CrawlResults
  discovered_urls : List String
deriving DecidableEq

/-- Start of `writer_task`: `discovered_urls` seeded with the URLs
already in `results.pdfs`. -/
def writer_init (results : CrawlResults) : WriterState :=
  { results := results, discovered_urls := results.pdfs.map (fun p => p.url) }

/-- One iteration of the writer actor's receive loop.  Returns the new
state and the document handed to `write_results`, if any: an `AddPdf` of
an already-recorded URL writes nothing and changes nothing. -/
def writer_process (s : WriterState) : WriterMessage → WriterState × Option CrawlResults
  | .AddPdf pdf =>
    if s.discovered_urls.contains pdf.url then (s, none)
    else
      let pdfs2 := s.results.pdfs ++ [pdf]
      let md := s.results.metadata
      let md2 : CrawlMetadata :=
        { md with
          total_pdfs_found := pdfs2.length
          verified_pdfs := if pdf.verified then md.verified_pdfs + 1 else md.verified_pdfs
          failed_verifications :=
            if pdf.verified then md.failed_verifications else md.failed_verifications + 1 }
      let r2 : CrawlResults := { metadata := md2, pdfs := pdfs2 }
      ({ results := r2, discovered_urls := pdf.url :: s.discovered_urls }, some r2)
  | .UpdateMetadata pages_crawled status =>
    let md2 := { s.results.metadata with total_pages_crawled := pages_crawled, status := status }
    let r2 : CrawlResults := { metadata := md2, pdfs := s.results.pdfs }
    ({ results := r2, discovered_urls := s.discovered_urls }, some r2)

/-- The writer actor's receive loop over a message sequence, collecting
every document written by `write_results`. -/
def writer_run (s : WriterState) : List WriterMessage → WriterState × List CrawlResults
  | [] => (s, [])
  | m :: ms =>
    let step := writer_process s m
    let rest := writer_run step.1 ms
    (rest.1, step.2.toList ++ rest.2)

/-- async fn writer_task(results, receiver, output_file): initializes
`discovered_urls`, writes the initial document, then drains messages.
Every document written atomically to disk (write temp, fsync, rename in
`write_results`) appears in the returned list. -/
def writer_task (init : CrawlResults) (msgs : List WriterMessage) :
    WriterState × List CrawlResults :=
  let s0 := writer_init init
  let run := writer_run s0 msgs
  (run.1, init :: run.2)

/-- The `initial_data` built in `Crawler::new`. -/
def initial_data (ts : String) (verify : Bool) : CrawlResults :=
  { metadata :=
      { start_url := ""
        max_depth := 0
        total_pages_crawled := 0
        total_pdfs_found := 0
        verified_pdfs := 0
        failed_verifications := 0
        crawl_timestamp := ts
        status := "in_progress"
        verification_enabled := verify }
    pdfs := [] }

/-- The journal invariant of claim C1 on a results document. -/
def journal_invariant (r : CrawlResults) : Prop :=
  r.metadata.total_pdfs_found = r.pdfs.length ∧
  r.metadata.verified_pdfs + r.metadata.failed_verifications ≤ r.metadata.total_pdfs_found ∧
  (r.pdfs.map (fun p => p.url)).Nodup

instance (r : CrawlResults) : Decidable (journal_invariant r) := by
  unfold journal_invariant; infer_instance

/-! ### Coarse robots gate (async fn can_fetch) -/

/-- A URL as `can_fetch` sees it: scheme and host component. -/
structure WUrl where
  scheme : String
  host : Option String
deriving DecidableEq

/-- What fetching `scheme://host/robots.txt` produced.  The first two
variants fail before any network I/O (URI parse, request build); the next
four are network attempts; `body` is a success status with a UTF-8 body. -/
inductive RobotsFetch where
  | parseFail
  | buildFail
  | netErr
  | httpFail
  | bodyErr
  | utf8Err
  | body (content : String)
deriving DecidableEq

/-- Result of a `can_fetch` call: the verdict, the updated
`robots_cache`, and how many network fetches the call performed. -/
structure CanFetchOut where
  allowed : Bool
  cache : List (String × Bool)
  network_fetches : Nat
deriving DecidableEq

/-- HashMap::get on the modelled `robots_cache`. -/
def cacheLookup (cache : List (String × Bool)) (key : String) : Option Bool :=
  match cache.find? (fun e => e.1 == key) with
  | some e => some e.2
  | none => none

/-- async fn can_fetch(&mut self, url).  The cache key is
`format!("{}://{}", url.scheme(), url.host_str().unwrap_or(""))`; every
failure path permits the host and caches `true`; a success response
denies exactly when the body contains the literal "Disallow: /". -/
def can_fetch (respect_robots : Bool) (net : String → RobotsFetch)
    (cache : List (String × Bool)) (url : WUrl) : CanFetchOut :=
  if !respect_robots then
    { allowed := true, cache := cache, network_fetches := 0 }
  else
    let base_url := url.scheme ++ "://" ++ url.host.getD ""
    match cacheLookup cache base_url with
    | some allowed => { allowed := allowed, cache := cache, network_fetches := 0 }
    | none =>
      match net base_url with
      | .parseFail =>
        { allowed := true, cache := (base_url, true) :: cache, network_fetches := 0 }
      | .buildFail =>
        { allowed := true, cache := (base_url, true) :: cache, network_fetches := 0 }
      | .netErr =>
        { allowed := true, cache := (base_url, true) :: cache, network_fetches := 1 }
      | .httpFail =>
        { allowed := true, cache := (base_url, true) :: cache, network_fetches := 1 }
      | .bodyErr =>
        { allowed := true, cache := (base_url, true) :: cache, network_fetches := 1 }
      | .utf8Err =>
        { allowed := true, cache := (base_url, true) :: cache, network_fetches := 1 }
      | .body content =>
        let allowed := !containsNats (strNats content) (strNats "Disallow: /")
        { allowed := allowed, cache := (base_url, allowed) :: cache, network_fetches := 1 }

end WebCrawler

/-! ## Theorems -/

/-! ### Arithmetic bridges for the packed counters -/

theorem land_two_pow_sub_one (x k : Nat) : x &&& (2 ^ k - 1) = x % 2 ^ k := by
  apply Nat.eq_of_testBit_eq
  intro i
  simp [Nat.testBit_and, Nat.testBit_mod_two_pow, Nat.testBit_two_pow_sub_one, Bool.and_comm]

theorem masked_field (x s : Nat) :
    (x &&& ((2 ^ 16 - 1) <<< s)) >>> s = x / 2 ^ s % 2 ^ 16 := by
  have h1 : (x &&& ((2 ^ 16 - 1) <<< s)) >>> s = (x >>> s) &&& (2 ^ 16 - 1) := by
    apply Nat.eq_of_testBit_eq
    intro i
    simp [Nat.testBit_and, Nat.testBit_shiftRight, Nat.testBit_shiftLeft,
      Nat.testBit_two_pow_sub_one]
  rw [h1, land_two_pow_sub_one, Nat.shiftRight_eq_div_pow]

namespace PdfDl.PackedCounters

theorem get_counts_eq (w : Nat) :
    get_counts w = (w % 2 ^ 16, w / 2 ^ 16 % 2 ^ 16, w / 2 ^ 32 % 2 ^ 16, w / 2 ^ 48 % 2 ^ 16) := by
  have m0 : DOWNLOADED_MASK = (2 ^ 16 - 1) <<< 0 := by decide
  have m1 : FAILED_MASK = (2 ^ 16 - 1) <<< 16 := by decide
  have m2 : QUEUED_MASK = (2 ^ 16 - 1) <<< 32 := by decide
  have m3 : CACHE_HITS_MASK = (2 ^ 16 - 1) <<< 48 := by decide
  unfold get_counts DOWNLOADED_SHIFT FAILED_SHIFT QUEUED_SHIFT CACHE_HITS_SHIFT
  rw [m0, m1, m2, m3, masked_field, masked_field, masked_field, masked_field]
  simp

theorem inc_downloaded_eq (w : Nat) : inc_downloaded w = (w + 1) % 2 ^ 64 := rfl

theorem inc_failed_eq (w : Nat) : inc_failed w = (w + 65536) % 2 ^ 64 := rfl

theorem inc_queued_eq (w : Nat) : inc_queued w = (w + 4294967296) % 2 ^ 64 := rfl

theorem dec_queued_eq (w : Nat) : dec_queued w = (w + (2 ^ 64 - 4294967296)) % 2 ^ 64 := rfl

theorem inc_cache_hits_eq (w : Nat) : inc_cache_hits w = (w + 281474976710656) % 2 ^ 64 := rfl

end PdfDl.PackedCounters

/-- C10 (counterexample): the claim asserts that without the
under-capacity precondition an increment always carries into the
adjacent field, changing a counter other than the targeted one.  For
`inc_cache_hits` on a word whose cache_hits field is full the carry
leaves the 64-bit word entirely: the cache_hits field wraps to 0 and
the downloaded, failed and queued components are all unchanged, so no
counter other than the targeted one changes. -/
theorem C10_counterexample :
    PdfDl.PackedCounters.get_counts 0xFFFF000000000000 = (0, 0, 0, 65535) ∧
    PdfDl.PackedCounters.inc_cache_hits 0xFFFF000000000000 = 0 ∧
    PdfDl.PackedCounters.get_counts
      (PdfDl.PackedCounters.inc_cache_hits 0xFFFF000000000000) = (0, 0, 0, 0) := by
  refine ⟨?_, ?_, ?_⟩ <;>
    simp [PdfDl.PackedCounters.get_counts_eq, PdfDl.PackedCounters.inc_cache_hits_eq]

/-- C10 (amended): for every value of the packed 64-bit counter word, if
the 16-bit field targeted by inc_downloaded, inc_failed, inc_queued or
inc_cache_hits is strictly below 2^16 - 1 (respectively, if the queued
field is nonzero for dec_queued), the operation changes exactly that one
component of `get_counts` and leaves the other three unchanged.  Without
the precondition, inc_downloaded, inc_failed and inc_queued carry into
the adjacent field; inc_cache_hits is the exception: its carry leaves
the word, so only the cache_hits field wraps to 0; and dec_queued at
queued = 0 borrows from the cache_hits field. -/
theorem C10_packed_counter_frame (w d f q c : Nat) (hw : w < 2 ^ 64)
    (h : PdfDl.PackedCounters.get_counts w = (d, f, q, c)) :
    (d < 65535 →
      PdfDl.PackedCounters.get_counts (PdfDl.PackedCounters.inc_downloaded w) = (d + 1, f, q, c)) ∧
    (f < 65535 →
      PdfDl.PackedCounters.get_counts (PdfDl.PackedCounters.inc_failed w) = (d, f + 1, q, c)) ∧
    (q < 65535 →
      PdfDl.PackedCounters.get_counts (PdfDl.PackedCounters.inc_queued w) = (d, f, q + 1, c)) ∧
    (c < 65535 →
      PdfDl.PackedCounters.get_counts (PdfDl.PackedCounters.inc_cache_hits w) = (d, f, q, c + 1)) ∧
    (0 < q →
      PdfDl.PackedCounters.get_counts (PdfDl.PackedCounters.dec_queued w) = (d, f, q - 1, c)) ∧
    (d = 65535 → f < 65535 →
      PdfDl.PackedCounters.get_counts (PdfDl.PackedCounters.inc_downloaded w) = (0, f + 1, q, c)) ∧
    (f = 65535 → q < 65535 →
      PdfDl.PackedCounters.get_counts (PdfDl.PackedCounters.inc_failed w) = (d, 0, q + 1, c)) ∧
    (q = 65535 → c < 65535 →
      PdfDl.PackedCounters.get_counts (PdfDl.PackedCounters.inc_queued w) = (d, f, 0, c + 1)) ∧
    (c = 65535 →
      PdfDl.PackedCounters.get_counts (PdfDl.PackedCounters.inc_cache_hits w) = (d, f, q, 0)) ∧
    (q = 0 → 0 < c →
      PdfDl.PackedCounters.get_counts (PdfDl.PackedCounters.dec_queued w) = (d, f, 65535, c - 1)) := by
  simp only [PdfDl.PackedCounters.get_counts_eq, PdfDl.PackedCounters.inc_downloaded_eq,
    PdfDl.PackedCounters.inc_failed_eq, PdfDl.PackedCounters.inc_queued_eq,
    PdfDl.PackedCounters.inc_cache_hits_eq, PdfDl.PackedCounters.dec_queued_eq,
    Prod.mk.injEq] at h ⊢
  obtain ⟨h1, h2, h3, h4⟩ := h
  refine ⟨fun p1 => ?_, fun p1 => ?_, fun p1 => ?_, fun p1 => ?_, fun p1 => ?_,
    fun p1 p2 => ?_, fun p1 p2 => ?_, fun p1 p2 => ?_, fun p1 => ?_, fun p1 p2 => ?_⟩ <;>
    omega

/-- C10 (witness): the frame theorem applied to the concrete word whose
fields are (1, 2, 3, 4). -/
theorem C10_witness :
    (1125912791875585 : Nat) < 2 ^ 64 ∧
    PdfDl.PackedCounters.get_counts 1125912791875585 = (1, 2, 3, 4) ∧
    PdfDl.PackedCounters.get_counts
      (PdfDl.PackedCounters.inc_queued 1125912791875585) = (1, 2, 4, 4) := by
  have h := C10_packed_counter_frame 1125912791875585 1 2 3 4 (by norm_num)
    (by simp [PdfDl.PackedCounters.get_counts_eq])
  exact ⟨by norm_num, by simp [PdfDl.PackedCounters.get_counts_eq], h.2.2.1 (by norm_num)⟩

/-! ### C4: classifier cache TTL -/

/-- C4: the verdict cache is built with the single builder-level
`time_to_live(cache_ttl)`, so a `No` verdict inserted after a failed
stage-4/5 probe carries the same expiry as a `Yes` verdict, namely
`cache_ttl` (3600 s under the default configuration) and not the unused
`negative_cache_ttl` (30 s). -/
theorem C4_unified_ttl :
    PdfDl.insertedEntryTTL (PdfDl.buildPdfCache PdfDl.CrawlerConfig.default) PdfDl.PdfKind.No
      = PdfDl.CrawlerConfig.default.cache_ttl ∧
    PdfDl.insertedEntryTTL (PdfDl.buildPdfCache PdfDl.CrawlerConfig.default) PdfDl.PdfKind.No
      = PdfDl.insertedEntryTTL (PdfDl.buildPdfCache PdfDl.CrawlerConfig.default) PdfDl.PdfKind.Yes ∧
    PdfDl.CrawlerConfig.default.cache_ttl = 3600 ∧
    PdfDl.CrawlerConfig.default.negative_cache_ttl = 30 ∧
    PdfDl.insertedEntryTTL (PdfDl.buildPdfCache PdfDl.CrawlerConfig.default) PdfDl.PdfKind.No
      ≠ PdfDl.CrawlerConfig.default.negative_cache_ttl := by
  refine ⟨rfl, rfl, rfl, rfl, ?_⟩
  decide

/-! ### C7: URL canonicalization -/

theorem asciiLower_slash_iff (b : Nat) : asciiLower b = 47 ↔ b = 47 := by
  by_cases hb : 65 ≤ b ∧ b ≤ 90
  · have h1 : asciiLower b = b + 32 := by unfold asciiLower; rw [if_pos hb]
    rw [h1]
    omega
  · have h1 : asciiLower b = b := by unfold asciiLower; rw [if_neg hb]
    rw [h1]

theorem asciiLower_idem (b : Nat) : asciiLower (asciiLower b) = asciiLower b := by
  by_cases hb : 65 ≤ b ∧ b ≤ 90
  · have h1 : asciiLower b = b + 32 := by unfold asciiLower; rw [if_pos hb]
    have h2 : asciiLower (b + 32) = b + 32 := by
      unfold asciiLower
      rw [if_neg (by omega : ¬(65 ≤ b + 32 ∧ b + 32 ≤ 90))]
    rw [h1, h2]
  · have h1 : asciiLower b = b := by unfold asciiLower; rw [if_neg hb]
    rw [h1]
    exact h1

theorem lowerNats_idem (l : List Nat) : lowerNats (lowerNats l) = lowerNats l := by
  unfold lowerNats
  rw [List.map_map]
  exact List.map_congr_left fun b _ => asciiLower_idem b

theorem dropWhile_self_idem (p : α → Bool) (l : List α) :
    (l.dropWhile p).dropWhile p = l.dropWhile p := by
  induction l with
  | nil => rfl
  | cons a l ih =>
    by_cases h : p a
    · simp [List.dropWhile_cons, h, ih]
    · simp [List.dropWhile_cons, h]

theorem trimEndSlashes_idem (l : List Nat) :
    PdfDl.trimEndSlashes (PdfDl.trimEndSlashes l) = PdfDl.trimEndSlashes l := by
  unfold PdfDl.trimEndSlashes
  rw [List.reverse_reverse, dropWhile_self_idem]

theorem trimEndSlashes_lowerNats (l : List Nat) :
    PdfDl.trimEndSlashes (lowerNats l) = lowerNats (PdfDl.trimEndSlashes l) := by
  unfold PdfDl.trimEndSlashes lowerNats
  have hp : ((fun b : Nat => b == 47) ∘ asciiLower) = (fun b : Nat => b == 47) := by
    funext b
    simp only [Function.comp]
    by_cases h : b = 47
    · subst h
      rfl
    · have h2 : asciiLower b ≠ 47 := fun hc => h ((asciiLower_slash_iff b).mp hc)
      simp [h, h2]
  rw [← List.map_reverse, List.dropWhile_map, hp, ← List.map_reverse]

theorem trimEndSlashes_append_slash (l : List Nat) :
    PdfDl.trimEndSlashes (l ++ [47]) = PdfDl.trimEndSlashes l := by
  unfold PdfDl.trimEndSlashes
  simp [List.dropWhile_cons]

/-- C7 (counterexample): the claim describes the canonical form as the
lowercased URL with a single trailing '/' removed.  On "http://a//" the
source's `trim_end_matches('/')` removes both slashes while the claim's
single trim leaves one, so the two canonicalizations disagree; in
particular "http://a/" and "http://a//" share one identity under the
source but not under the claim's description. -/
theorem C7_counterexample :
    PdfDl.normalizeUrl (strNats "http://a//") = strNats "http://a" ∧
    PdfDl.claimNormalizeUrl (strNats "http://a//") = strNats "http://a/" ∧
    PdfDl.normalizeUrl (strNats "http://a//") ≠
      PdfDl.claimNormalizeUrl (strNats "http://a//") ∧
    PdfDl.normalizeUrl (strNats "http://a/") = PdfDl.normalizeUrl (strNats "http://a//") ∧
    PdfDl.claimNormalizeUrl (strNats "http://a/") ≠
      PdfDl.claimNormalizeUrl (strNats "http://a//") := by
  refine ⟨?_, ?_, ?_, ?_, ?_⟩ <;> decide

/-- C7 (amended): the identity hash is computed over the canonical form
obtained by trimming ALL trailing '/' bytes and lowercasing.  This
canonicalization is idempotent; appending a trailing slash never changes
the canonical form; two URLs that differ only in ASCII letter case (in
particular, only in scheme case) share a canonical form; and equal
canonical forms give equal hashes for any deterministic hasher. -/
theorem C7_canonicalization (h : List Nat → Nat) :
    (∀ l, PdfDl.normalizeUrl (PdfDl.normalizeUrl l) = PdfDl.normalizeUrl l) ∧
    (∀ l, PdfDl.normalizeUrl (l ++ [47]) = PdfDl.normalizeUrl l) ∧
    (∀ u v, lowerNats u = lowerNats v → PdfDl.normalizeUrl u = PdfDl.normalizeUrl v) ∧
    (∀ u v, PdfDl.normalizeUrl u = PdfDl.normalizeUrl v →
      PdfDl.hash_url h u = PdfDl.hash_url h v) := by
  refine ⟨fun l => ?_, fun l => ?_, fun u v huv => ?_, fun u v huv => ?_⟩
  · unfold PdfDl.normalizeUrl
    rw [trimEndSlashes_lowerNats, trimEndSlashes_idem, lowerNats_idem]
  · unfold PdfDl.normalizeUrl
    rw [trimEndSlashes_append_slash]
  · unfold PdfDl.normalizeUrl
    rw [← trimEndSlashes_lowerNats, ← trimEndSlashes_lowerNats, huv]
  · unfold PdfDl.hash_url
    rw [huv]

/-- C7 (witness): the amended canonicalization facts at concrete URLs,
via the theorem applied to the length hasher. -/
theorem C7_witness :
    lowerNats (strNats "HTTP://a.com/x") = lowerNats (strNats "http://a.com/x") ∧
    PdfDl.normalizeUrl (strNats "HTTP://a.com/x") =
      PdfDl.normalizeUrl (strNats "http://a.com/x") := by
  have h := (C7_canonicalization List.length).2.2.1
    (strNats "HTTP://a.com/x") (strNats "http://a.com/x") (by decide)
  exact ⟨by decide, h⟩

/-! ### C5: post-flight PDF validation -/

theorem check_eof_sizes_any (file : List Nat) (sizes : List Nat) :
    PdfDl.PDFValidator.check_eof_sizes file sizes =
      sizes.any (fun k => decide (k ≤ file.length) && PdfDl.PDFValidator.eofWindowHit file k) := by
  induction sizes with
  | nil => rfl
  | cons s rest ih =>
    unfold PdfDl.PDFValidator.check_eof_sizes
    by_cases h1 : s ≤ file.length
    · by_cases h2 : PdfDl.PDFValidator.eofWindowHit file s <;> simp [h1, h2, ih]
    · simp [h1, ih]

theorem check_eof_marker_eq_claim (file : List Nat) :
    PdfDl.PDFValidator.check_eof_marker file = PdfDl.claim_eof_ok file := by
  unfold PdfDl.PDFValidator.check_eof_marker PdfDl.claim_eof_ok
  exact check_eof_sizes_any file [32, 64, 128, 256]

theorem validate_complete_pdf_flat (file : List Nat) :
    PdfDl.PDFValidator.validate_complete_pdf file =
      (decide (100 ≤ file.length) && decide (file.length ≤ 500000000) &&
       PdfDl.PDFValidator.validate_header (file.take 16) &&
       PdfDl.PDFValidator.check_eof_marker file &&
       PdfDl.PDFValidator.validate_pdf_structure (file.take (min file.length 1000000))) := by
  unfold PdfDl.PDFValidator.validate_complete_pdf
  by_cases h1 : file.length < 100
  · have e1 : ¬(100 ≤ file.length) := by omega
    simp [h1, e1]
  · by_cases h2 : file.length > 500000000
    · have e2 : ¬(file.length ≤ 500000000) := by omega
      simp [h1, h2, e2]
    · have h3 : ¬(file.length < 16) := by omega
      have e1 : 100 ≤ file.length := by omega
      have e2 : file.length ≤ 500000000 := by omega
      by_cases h4 : PdfDl.PDFValidator.validate_header (file.take 16) <;>
        by_cases h5 : PdfDl.PDFValidator.check_eof_marker file <;>
          simp [h1, h2, h3, h4, h5, e1, e2]

/-- C5 (counterexample): a 100-byte file that `validate_complete_pdf`
accepts but that fails the claim's structural alternatives.  It has the
header, a trailing "%%EOF", and "xref" with "trailer", but neither
"endobj" nor "startxref": the source's third structural alternative
(xref together with trailer) accepts it, while the claim's two
alternatives both fail. -/
theorem C5_counterexample :
    PdfDl.PDFValidator.validate_complete_pdf PdfDl.pdfFile100 = true ∧
    PdfDl.claim_valid_pdf PdfDl.pdfFile100 = false := by
  constructor <;> decide

/-- C5 (amended): `validate_complete_pdf` returns true if and only if the
file size is in the 100-byte to 500-MB window, the first 16 bytes look
like a PDF header, one of the last-32/64/128/256-byte windows that fits
in the file contains "%%EOF" or "startxref", and the first up-to-1-MB
contains the version token together with one of: obj/endobj and (xref or
trailer); startxref and PDF keywords; or — the alternative the claim
omits — xref together with trailer. -/
theorem C5_validate_complete_pdf_iff (file : List Nat) :
    PdfDl.PDFValidator.validate_complete_pdf file = PdfDl.amended_valid_pdf file := by
  rw [validate_complete_pdf_flat]
  unfold PdfDl.amended_valid_pdf PdfDl.claim_size_ok PdfDl.claim_header_ok
  rw [← check_eof_marker_eq_claim]
  have hs : PdfDl.amended_structure_ok file =
      PdfDl.PDFValidator.validate_pdf_structure (file.take (min file.length 1000000)) := by
    unfold PdfDl.amended_structure_ok PdfDl.PDFValidator.validate_pdf_structure
    rfl
  rw [hs]

/-! ### C3: temp-file cleanup on downloader failure paths -/

/-- C3 (the claim is right, the code is not): a stream whose first chunk
is a plausible PDF start and whose second read errors makes
`download_pdf_with_validation` return the "Failed to read chunk" error
via `?` WITHOUT removing the temp file it created: the outcome has
`ok = false` and `temp_left = true`, contradicting the always-unlink
guarantee (spec 4.7 commit discipline, state machine, and P5). -/
theorem C3_read_error_leaks_temp :
    PdfDl.download_pdf_with_validation
      { resume := false, final_exists := false, existing_file := [],
        response := some
          { content_type := none, content_length := none,
            chunks := [PdfDl.ChunkResult.ok (strNats "%PDF-1.4 hello"),
                       PdfDl.ChunkResult.err] } } =
      { ok := false, temp_created := true, temp_left := true,
        streamed := true, final_written := false, final_deleted := false } := by
  decide

/-! ### C6: resume semantics of the downloader -/

/-- C6 (counterexample): with `resume = true` and a destination file that
exists and validates, the downloader does NOT short-circuit: the guard is
`final_filepath.exists() && !resume`, so it streams the body again and
rewrites the file (`streamed = true`, `final_written = true`).  The
second run of a crawl with `resume = true` therefore re-downloads. -/
theorem C6_counterexample :
    PdfDl.PDFValidator.validate_complete_pdf PdfDl.pdfFile100 = true ∧
    PdfDl.download_pdf_with_validation
      { resume := true, final_exists := true, existing_file := PdfDl.pdfFile100,
        response := some
          { content_type := none, content_length := none,
            chunks := [PdfDl.ChunkResult.ok PdfDl.pdfFile100] } } =
      { ok := true, temp_created := true, temp_left := false,
        streamed := true, final_written := true, final_deleted := false } := by
  constructor <;> decide

/-- C6 (amended): the downloader is idempotent on an existing valid file
when called with `resume = false`: it returns success without streaming
the body, without creating a temp file, and without touching the
destination.  (With `resume = true` — the `CrawlerConfig` default — it
always re-downloads.) -/
theorem C6_resume_false_short_circuit (inp : PdfDl.DownloadInput)
    (resp : PdfDl.HttpResponse)
    (h1 : inp.resume = false) (h2 : inp.final_exists = true)
    (h3 : PdfDl.PDFValidator.validate_complete_pdf inp.existing_file = true)
    (h4 : inp.response = some resp) :
    PdfDl.download_pdf_with_validation inp =
      { ok := true, temp_created := false, temp_left := false,
        streamed := false, final_written := false, final_deleted := false } := by
  unfold PdfDl.download_pdf_with_validation
  rw [h4]
  simp [h1, h2, h3]

/-- C6 (witness): the short-circuit theorem applied to a concrete input
whose destination holds a valid PDF. -/
theorem C6_witness :
    PdfDl.download_pdf_with_validation
      { resume := false, final_exists := true, existing_file := PdfDl.pdfFile100,
        response := some { content_type := none, content_length := none, chunks := [] } } =
      { ok := true, temp_created := false, temp_left := false,
        streamed := false, final_written := false, final_deleted := false } :=
  C6_resume_false_short_circuit
    { resume := false, final_exists := true, existing_file := PdfDl.pdfFile100,
      response := some { content_type := none, content_length := none, chunks := [] } }
    { content_type := none, content_length := none, chunks := [] }
    rfl rfl (by decide) rfl

/-! ### C2: classifier stage ordering -/

/-- C2: for every URL the classifier evaluates its stages strictly in
order (cache, URL pattern, URL clue regex, anchor text, HEAD MIME,
Range+magic): a cache hit returns the cached verdict with no stage
evaluated and no network probe; the first stage that yields Yes
terminates the pipeline (no later stage runs, no later probe is issued);
if no stage fires the verdict is No with every stage evaluated; and on
every cache miss the computed verdict is inserted into the cache before
returning. -/
theorem C2_classifier_pipeline (env : PdfDl.ClassifierEnv) (url : String) :
    (∀ c, env.cache url = some c →
      PdfDl.is_pdf_link_optimized env url =
        { verdict := c, cache_hit := true, stage1_run := false, stage2_run := false,
          stage3_run := false, stage4_probe := false, stage5_probe := false,
          cache_insert := none }) ∧
    (env.cache url = none →
      (PdfDl.is_pdf_link_optimized env url).cache_insert =
        some (PdfDl.is_pdf_link_optimized env url).verdict ∧
      (PdfDl.is_pdf_link_optimized env url).stage1_run = true) ∧
    (env.cache url = none → env.url_pattern_match url = true →
      PdfDl.is_pdf_link_optimized env url =
        { verdict := .Yes, cache_hit := false, stage1_run := true, stage2_run := false,
          stage3_run := false, stage4_probe := false, stage5_probe := false,
          cache_insert := some .Yes }) ∧
    (env.cache url = none → env.url_pattern_match url = false →
      env.clue_regex_match url = true →
      PdfDl.is_pdf_link_optimized env url =
        { verdict := .Yes, cache_hit := false, stage1_run := true, stage2_run := true,
          stage3_run := false, stage4_probe := false, stage5_probe := false,
          cache_insert := some .Yes }) ∧
    (env.cache url = none → env.url_pattern_match url = false →
      env.clue_regex_match url = false →
      ∀ t, env.anchor_text url = some t → env.anchor_regex_match t = true →
      PdfDl.is_pdf_link_optimized env url =
        { verdict := .Yes, cache_hit := false, stage1_run := true, stage2_run := true,
          stage3_run := true, stage4_probe := false, stage5_probe := false,
          cache_insert := some .Yes }) ∧
    (env.cache url = none → env.url_pattern_match url = false →
      env.clue_regex_match url = false →
      (∀ t, env.anchor_text url = some t → env.anchor_regex_match t = false) →
      ∀ e, env.head_mime_essence url = some e → PdfDl.EXTRA_PDF_MIME.contains e = true →
      PdfDl.is_pdf_link_optimized env url =
        { verdict := .Yes, cache_hit := false, stage1_run := true, stage2_run := true,
          stage3_run := true, stage4_probe := true, stage5_probe := false,
          cache_insert := some .Yes }) ∧
    (env.cache url = none → env.url_pattern_match url = false →
      env.clue_regex_match url = false →
      (∀ t, env.anchor_text url = some t → env.anchor_regex_match t = false) →
      (∀ e, env.head_mime_essence url = some e → PdfDl.EXTRA_PDF_MIME.contains e = false) →
      ∀ ch, env.range_first_bytes url = some ch →
      PdfDl.magicHit ch = true →
      PdfDl.is_pdf_link_optimized env url =
        { verdict := .Yes, cache_hit := false, stage1_run := true, stage2_run := true,
          stage3_run := true, stage4_probe := true, stage5_probe := true,
          cache_insert := some .Yes }) ∧
    (env.cache url = none → env.url_pattern_match url = false →
      env.clue_regex_match url = false →
      (∀ t, env.anchor_text url = some t → env.anchor_regex_match t = false) →
      (∀ e, env.head_mime_essence url = some e → PdfDl.EXTRA_PDF_MIME.contains e = false) →
      (∀ ch, env.range_first_bytes url = some ch → PdfDl.magicHit ch = false) →
      PdfDl.is_pdf_link_optimized env url =
        { verdict := .No, cache_hit := false, stage1_run := true, stage2_run := true,
          stage3_run := true, stage4_probe := true, stage5_probe := true,
          cache_insert := some .No }) := by
  refine ⟨?_, ?_, ?_, ?_, ?_, ?_, ?_, ?_⟩
  · intro c hc
    simp [PdfDl.is_pdf_link_optimized, hc]
  · intro hc
    simp [PdfDl.is_pdf_link_optimized, hc]
  · intro hc h1
    simp [PdfDl.is_pdf_link_optimized, hc, h1]
  · intro hc h1 h2
    simp [PdfDl.is_pdf_link_optimized, hc, h1, h2]
  · intro hc h1 h2 t ht h3
    simp [PdfDl.is_pdf_link_optimized, hc, h1, h2, ht, h3]
  · intro hc h1 h2 h3 e he h4
    have h4m : e ∈ PdfDl.EXTRA_PDF_MIME := by simpa using h4
    have e3 : (match env.anchor_text url with
        | some text => if env.anchor_regex_match text then PdfDl.PdfKind.Yes else .No
        | none => PdfDl.PdfKind.No) = PdfDl.PdfKind.No := by
      cases hat : env.anchor_text url with
      | none => rfl
      | some t => simp [h3 t hat]
    simp [PdfDl.is_pdf_link_optimized, hc, h1, h2, e3, he, h4m]
  · intro hc h1 h2 h3 h4 ch hch h5
    have e3 : (match env.anchor_text url with
        | some text => if env.anchor_regex_match text then PdfDl.PdfKind.Yes else .No
        | none => PdfDl.PdfKind.No) = PdfDl.PdfKind.No := by
      cases hat : env.anchor_text url with
      | none => rfl
      | some t => simp [h3 t hat]
    have e4 : (match env.head_mime_essence url with
        | some essence =>
          if PdfDl.EXTRA_PDF_MIME.contains essence then PdfDl.PdfKind.Yes else .No
        | none => PdfDl.PdfKind.No) = PdfDl.PdfKind.No := by
      cases hhe : env.head_mime_essence url with
      | none => rfl
      | some e =>
        have hm : e ∉ PdfDl.EXTRA_PDF_MIME := by simpa using h4 e hhe
        simp [hm]
    simp only [List.elem_iff] at e4
    simp [PdfDl.is_pdf_link_optimized, hc, h1, h2, e3, e4, hch, h5]
  · intro hc h1 h2 h3 h4 h5
    have e3 : (match env.anchor_text url with
        | some text => if env.anchor_regex_match text then PdfDl.PdfKind.Yes else .No
        | none => PdfDl.PdfKind.No) = PdfDl.PdfKind.No := by
      cases hat : env.anchor_text url with
      | none => rfl
      | some t => simp [h3 t hat]
    have e4 : (match env.head_mime_essence url with
        | some essence =>
          if PdfDl.EXTRA_PDF_MIME.contains essence then PdfDl.PdfKind.Yes else .No
        | none => PdfDl.PdfKind.No) = PdfDl.PdfKind.No := by
      cases hhe : env.head_mime_essence url with
      | none => rfl
      | some e =>
        have hm : e ∉ PdfDl.EXTRA_PDF_MIME := by simpa using h4 e hhe
        simp [hm]
    simp only [List.elem_iff] at e4
    have e5 : (match env.range_first_bytes url with
        | some chunk => if PdfDl.magicHit chunk then PdfDl.PdfKind.Yes else .No
        | none => PdfDl.PdfKind.No) = PdfDl.PdfKind.No := by
      cases hrb : env.range_first_bytes url with
      | none => rfl
      | some ch => simp [h5 ch hrb]
    simp [PdfDl.is_pdf_link_optimized, hc, h1, h2, e3, e4, e5]

/-- C2 (witness): a concrete environment in which stages 1-3 do not fire
and the HEAD probe reports application/pdf: the pipeline stops at stage
4 with verdict Yes, without issuing the stage-5 probe, and inserts Yes
into the cache. -/
theorem C2_witness :
    PdfDl.is_pdf_link_optimized
      { cache := fun _ => none, url_pattern_match := fun _ => false,
        clue_regex_match := fun _ => false, anchor_text := fun _ => none,
        anchor_regex_match := fun _ => false,
        head_mime_essence := fun _ => some "application/pdf",
        range_first_bytes := fun _ => none } "http://h/x" =
      { verdict := .Yes, cache_hit := false, stage1_run := true, stage2_run := true,
        stage3_run := true, stage4_probe := true, stage5_probe := false,
        cache_insert := some .Yes } :=
  ((C2_classifier_pipeline
      { cache := fun _ => none, url_pattern_match := fun _ => false,
        clue_regex_match := fun _ => false, anchor_text := fun _ => none,
        anchor_regex_match := fun _ => false,
        head_mime_essence := fun _ => some "application/pdf",
        range_first_bytes := fun _ => none } "http://h/x").2.2.2.2.2.1)
    rfl rfl rfl (fun t ht => by simp at ht) "application/pdf" rfl (by decide)

/-! ### C8: same-host discipline of the recursive crawl -/

theorem dispatch_links_tasks_host (task : PdfDl.RCrawlTask) (bh : String)
    (md : Option Nat) (checks : List (PdfDl.RUrl × PdfDl.PdfKind)) :
    ∀ t ∈ (PdfDl.dispatch_links task bh md checks).2, t.url.host = some bh := by
  induction checks with
  | nil =>
    intro t ht
    simp [PdfDl.dispatch_links] at ht
  | cons c rest ih =>
    obtain ⟨u, k⟩ := c
    intro t ht
    by_cases hk : k = PdfDl.PdfKind.Yes
    · simp only [PdfDl.dispatch_links, if_pos hk] at ht
      exact ih t ht
    · by_cases hh : u.host = some bh
      · simp only [PdfDl.dispatch_links, if_neg hk, if_pos hh] at ht
        split at ht
        · rcases List.mem_cons.mp ht with h | h
          · subst h
            exact hh
          · exact ih t h
        · exact ih t ht
      · simp only [PdfDl.dispatch_links, if_neg hk, if_neg hh] at ht
        exact ih t ht

theorem dispatch_links_yes_mem (task : PdfDl.RCrawlTask) (bh : String)
    (md : Option Nat) (checks : List (PdfDl.RUrl × PdfDl.PdfKind)) :
    ∀ u, (u, PdfDl.PdfKind.Yes) ∈ checks → u ∈ (PdfDl.dispatch_links task bh md checks).1 := by
  induction checks with
  | nil =>
    intro u hu
    simp at hu
  | cons c rest ih =>
    obtain ⟨v, k⟩ := c
    intro u hu
    rcases List.mem_cons.mp hu with h | h
    · obtain ⟨h1, h2⟩ := Prod.ext_iff.mp h
      subst h1
      subst h2
      simp [PdfDl.dispatch_links]
    · by_cases hk : k = PdfDl.PdfKind.Yes
      · simp only [PdfDl.dispatch_links, if_pos hk]
        exact List.mem_cons_of_mem v (ih u h)
      · by_cases hh : v.host = some bh
        · simp only [PdfDl.dispatch_links, if_neg hk, if_pos hh]
          split
          · exact ih u h
          · exact ih u h
        · simp only [PdfDl.dispatch_links, if_neg hk, if_neg hh]
          exact ih u h

theorem crawl_step_host_inv (oracle : PdfDl.RUrl → List (PdfDl.RUrl × PdfDl.PdfKind))
    (bh : String) (md : Option Nat) (seed : PdfDl.RCrawlTask) (s : PdfDl.CrawlSim)
    (h1 : ∀ t ∈ s.enq_log, t.url.host = some bh)
    (h2 : ∀ t ∈ s.queue, t = seed ∨ t.url.host = some bh) :
    (∀ t ∈ (PdfDl.crawl_step oracle bh md s).enq_log, t.url.host = some bh) ∧
    (∀ t ∈ (PdfDl.crawl_step oracle bh md s).queue, t = seed ∨ t.url.host = some bh) := by
  unfold PdfDl.crawl_step
  cases hq : s.queue with
  | nil => exact ⟨h1, fun t ht => h2 t (hq ▸ ht)⟩
  | cons t0 rest =>
    constructor
    · intro t ht
      simp only [List.mem_append] at ht
      rcases ht with h | h
      · exact h1 t h
      · exact dispatch_links_tasks_host t0 bh md (oracle t0.url) t h
    · intro t ht
      simp only [List.mem_append] at ht
      rcases ht with h | h
      · exact h2 t (by rw [hq]; exact List.mem_cons_of_mem t0 h)
      · exact Or.inr (dispatch_links_tasks_host t0 bh md (oracle t0.url) t h)

theorem crawl_run_host_inv (oracle : PdfDl.RUrl → List (PdfDl.RUrl × PdfDl.PdfKind))
    (bh : String) (md : Option Nat) (seed : PdfDl.RCrawlTask) :
    ∀ (n : Nat) (s : PdfDl.CrawlSim),
      (∀ t ∈ s.enq_log, t.url.host = some bh) →
      (∀ t ∈ s.queue, t = seed ∨ t.url.host = some bh) →
      (∀ t ∈ (PdfDl.crawl_run oracle bh md n s).enq_log, t.url.host = some bh) ∧
      (∀ t ∈ (PdfDl.crawl_run oracle bh md n s).queue, t = seed ∨ t.url.host = some bh) := by
  intro n
  induction n with
  | zero => intro s h1 h2; exact ⟨h1, h2⟩
  | succ n ih =>
    intro s h1 h2
    have step := crawl_step_host_inv oracle bh md seed s h1 h2
    exact ih (PdfDl.crawl_step oracle bh md s) step.1 step.2

/-- C8: in recursive mode every crawl task enqueued by link discovery has
the start URL's host (the `base_host` computed by `crawl_and_download`);
every task ever in the queue is the seed or has that host; a link
classified Yes — same-host or cross-host — goes to the PDF download
queue; and a link whose host differs from `base_host` is never turned
into a crawl task by the dispatch. -/
theorem C8_same_host_discipline (oracle : PdfDl.RUrl → List (PdfDl.RUrl × PdfDl.PdfKind))
    (start : PdfDl.RUrl) (max_depth : Option Nat) (n : Nat) :
    (∀ t ∈ (PdfDl.crawl_run oracle (PdfDl.base_host_of start) max_depth n
        (PdfDl.initial_sim start)).enq_log,
      t.url.host = some (PdfDl.base_host_of start)) ∧
    (∀ t ∈ (PdfDl.crawl_run oracle (PdfDl.base_host_of start) max_depth n
        (PdfDl.initial_sim start)).queue,
      t = { url := start, depth := 0, retry_count := 0 } ∨
        t.url.host = some (PdfDl.base_host_of start)) ∧
    (∀ task bh md checks u, (u, PdfDl.PdfKind.Yes) ∈ checks →
      u ∈ (PdfDl.dispatch_links task bh md checks).1) ∧
    (∀ task bh md checks t, t ∈ (PdfDl.dispatch_links task bh md checks).2 →
      t.url.host = some bh) := by
  have base := crawl_run_host_inv oracle (PdfDl.base_host_of start) max_depth
    { url := start, depth := 0, retry_count := 0 } n (PdfDl.initial_sim start)
    (by intro t ht; simp [PdfDl.initial_sim] at ht)
    (by
      intro t ht
      simp only [PdfDl.initial_sim, List.mem_singleton] at ht
      exact Or.inl ht)
  refine ⟨base.1, base.2, ?_, ?_⟩
  · intro task bh md checks u hu
    exact dispatch_links_yes_mem task bh md checks u hu
  · intro task bh md checks t ht
    exact dispatch_links_tasks_host task bh md checks t ht

/-- C8 (witness): one crawl step from a seed on host "h" whose page
links a same-host non-PDF (enqueued, host "h") and a cross-host PDF
(queued for download, never enqueued). -/
theorem C8_witness :
    ({ url := { host := some "h", full := "http://h/a" }, depth := 1, retry_count := 0 }
        : PdfDl.RCrawlTask).url.host = some (PdfDl.base_host_of
          { host := some "h", full := "http://h/" }) ∧
    ({ host := some "g", full := "http://g/b.pdf" } : PdfDl.RUrl) ∈
      (PdfDl.dispatch_links
        { url := { host := some "h", full := "http://h/" }, depth := 0, retry_count := 0 }
        "h" none
        [({ host := some "h", full := "http://h/a" }, PdfDl.PdfKind.No),
         ({ host := some "g", full := "http://g/b.pdf" }, PdfDl.PdfKind.Yes)]).1 := by
  constructor
  · have h := (C8_same_host_discipline
      (fun u => if u.full = "http://h/"
        then [({ host := some "h", full := "http://h/a" }, PdfDl.PdfKind.No),
              ({ host := some "g", full := "http://g/b.pdf" }, PdfDl.PdfKind.Yes)]
        else [])
      { host := some "h", full := "http://h/" } none 1).1
    exact h { url := { host := some "h", full := "http://h/a" }, depth := 1, retry_count := 0 }
      (by decide)
  · exact (C8_same_host_discipline (fun _ => [])
      { host := some "h", full := "http://h/" } none 0).2.2.1
      { url := { host := some "h", full := "http://h/" }, depth := 0, retry_count := 0 }
      "h" none
      [({ host := some "h", full := "http://h/a" }, PdfDl.PdfKind.No),
       ({ host := some "g", full := "http://g/b.pdf" }, PdfDl.PdfKind.Yes)]
      { host := some "g", full := "http://g/b.pdf" }
      (by decide)

/-! ### C9: coarse robots gate -/

/-- C9 (counterexample): the claim says the verdict is cached per host,
so any host is probed at most once per run.  The cache key is
`scheme://host`: after a first call for http://h (one network fetch), a
second call for the SAME host over https misses the cache and performs a
second network fetch. -/
theorem C9_counterexample :
    (WebCrawler.can_fetch true (fun _ => WebCrawler.RobotsFetch.body "User-agent: *") []
        { scheme := "http", host := some "h" }).network_fetches = 1 ∧
    (WebCrawler.can_fetch true (fun _ => WebCrawler.RobotsFetch.body "User-agent: *")
        (WebCrawler.can_fetch true (fun _ => WebCrawler.RobotsFetch.body "User-agent: *") []
          { scheme := "http", host := some "h" }).cache
        { scheme := "https", host := some "h" }).network_fetches = 1 := by
  constructor <;> decide

/-- C9 (amended): with robots respected, a call whose `scheme://host`
key is cached returns the cached verdict with no network fetch; a cache
miss stores its verdict under that key (so any given `scheme://host`
pair is fetched at most once per run); and on a miss the host is denied
exactly when the fetch returns a success-status body containing the
literal "Disallow: /" — every parse, build, network, status, body-read
or UTF-8 failure permits the host.  With robots not respected the call
allows unconditionally and touches nothing. -/
theorem C9_robots_gate (net : String → WebCrawler.RobotsFetch)
    (cache : List (String × Bool)) (url : WebCrawler.WUrl) :
    (WebCrawler.can_fetch false net cache url =
      { allowed := true, cache := cache, network_fetches := 0 }) ∧
    (∀ v, WebCrawler.cacheLookup cache (url.scheme ++ "://" ++ url.host.getD "") = some v →
      WebCrawler.can_fetch true net cache url =
        { allowed := v, cache := cache, network_fetches := 0 }) ∧
    (WebCrawler.cacheLookup cache (url.scheme ++ "://" ++ url.host.getD "") = none →
      WebCrawler.cacheLookup (WebCrawler.can_fetch true net cache url).cache
          (url.scheme ++ "://" ++ url.host.getD "") =
        some (WebCrawler.can_fetch true net cache url).allowed ∧
      ((WebCrawler.can_fetch true net cache url).allowed = false ↔
        ∃ c, net (url.scheme ++ "://" ++ url.host.getD "") = WebCrawler.RobotsFetch.body c ∧
          containsNats (strNats c) (strNats "Disallow: /") = true)) := by
  refine ⟨?_, ?_, ?_⟩
  · simp [WebCrawler.can_fetch]
  · intro v hv
    simp [WebCrawler.can_fetch, hv]
  · intro hmiss
    simp only [WebCrawler.can_fetch, Bool.not_true, Bool.false_eq_true, if_false, hmiss]
    cases hnet : net (url.scheme ++ "://" ++ url.host.getD "") with
    | parseFail => simp [WebCrawler.cacheLookup, hnet]
    | buildFail => simp [WebCrawler.cacheLookup, hnet]
    | netErr => simp [WebCrawler.cacheLookup, hnet]
    | httpFail => simp [WebCrawler.cacheLookup, hnet]
    | bodyErr => simp [WebCrawler.cacheLookup, hnet]
    | utf8Err => simp [WebCrawler.cacheLookup, hnet]
    | body content =>
      constructor
      · simp [WebCrawler.cacheLookup]
      · constructor
        · intro hdeny
          refine ⟨content, rfl, ?_⟩
          simp at hdeny
          simpa using hdeny
        · rintro ⟨c, hc, hcontains⟩
          injection hc with h
          subst h
          simp [hcontains]

/-- C9 (witness): the gate theorem at a concrete robots body containing
"Disallow: /", which denies the host, and at a concrete cache hit. -/
theorem C9_witness :
    (WebCrawler.can_fetch true
        (fun _ => WebCrawler.RobotsFetch.body "User-agent: *\nDisallow: /") []
        { scheme := "http", host := some "h" }).allowed = false ∧
    WebCrawler.can_fetch true (fun _ => WebCrawler.RobotsFetch.netErr)
        [("http://h", false)] { scheme := "http", host := some "h" } =
      { allowed := false, cache := [("http://h", false)], network_fetches := 0 } := by
  constructor
  · exact ((C9_robots_gate
      (fun _ => WebCrawler.RobotsFetch.body "User-agent: *\nDisallow: /") []
      { scheme := "http", host := some "h" }).2.2 (by decide)).2.mpr
      ⟨"User-agent: *\nDisallow: /", rfl, by decide⟩
  · exact (C9_robots_gate (fun _ => WebCrawler.RobotsFetch.netErr)
      [("http://h", false)] { scheme := "http", host := some "h" }).2.1 false (by decide)

/-! ### C1: journal writer invariant -/

/-- The strengthened induction invariant for the writer actor: counters
consistent (with equality, which implies the claim's inequality), every
recorded URL present in `discovered_urls`, and recorded URLs pairwise
distinct. -/
def WriterStateInv (s : WebCrawler.WriterState) : Prop :=
  s.results.metadata.total_pdfs_found = s.results.pdfs.length ∧
  s.results.metadata.verified_pdfs + s.results.metadata.failed_verifications =
    s.results.metadata.total_pdfs_found ∧
  (∀ p ∈ s.results.pdfs, p.url ∈ s.discovered_urls) ∧
  (s.results.pdfs.map (fun p => p.url)).Nodup

theorem writer_process_inv (s : WebCrawler.WriterState) (m : WebCrawler.WriterMessage)
    (h : WriterStateInv s) :
    WriterStateInv (WebCrawler.writer_process s m).1 ∧
    (∀ r, (WebCrawler.writer_process s m).2 = some r → WebCrawler.journal_invariant r) := by
  obtain ⟨h1, h2, h3, h4⟩ := h
  cases m with
  | AddPdf pdf =>
    by_cases hdup : s.discovered_urls.contains pdf.url
    · constructor
      · simp only [WebCrawler.writer_process, if_pos hdup]
        exact ⟨h1, h2, h3, h4⟩
      · intro r hr
        simp only [WebCrawler.writer_process, if_pos hdup] at hr
        cases hr
    · have hnotmem : pdf.url ∉ s.discovered_urls := by simpa using hdup
      have hnotrec : pdf.url ∉ s.results.pdfs.map (fun p => p.url) := by
        intro hmem
        obtain ⟨q, hq, hq2⟩ := List.mem_map.mp hmem
        exact hnotmem (hq2 ▸ h3 q hq)
      have hinv2 : WriterStateInv (WebCrawler.writer_process s (.AddPdf pdf)).1 := by
        simp only [WebCrawler.writer_process, if_neg hdup]
        refine ⟨by simp, ?_, ?_, ?_⟩
        · simp only [List.length_append, List.length_singleton]
          by_cases hv : pdf.verified <;> simp [hv] <;> omega
        · intro p hp
          rcases List.mem_append.mp hp with hp | hp
          · exact List.mem_cons_of_mem _ (h3 p hp)
          · simp only [List.mem_singleton] at hp
            subst hp
            exact List.mem_cons_self _ _
        · simp only [List.map_append, List.map_cons, List.map_nil]
          rw [List.nodup_append]
          refine ⟨h4, List.nodup_singleton _, ?_⟩
          intro a ha hb
          simp only [List.mem_singleton] at hb
          subst hb
          exact hnotrec ha
      constructor
      · exact hinv2
      · intro r hr
        simp only [WebCrawler.writer_process, if_neg hdup] at hr
        have := hinv2
        simp only [WebCrawler.writer_process, if_neg hdup] at this
        obtain ⟨g1, g2, g3, g4⟩ := this
        cases hr
        exact ⟨g1, le_of_eq g2, g4⟩
  | UpdateMetadata pages status =>
    constructor
    · exact ⟨h1, h2, h3, h4⟩
    · intro r hr
      simp only [WebCrawler.writer_process] at hr
      cases hr
      exact ⟨h1, le_of_eq h2, h4⟩

theorem writer_run_inv (msgs : List WebCrawler.WriterMessage) (s : WebCrawler.WriterState)
    (h : WriterStateInv s) :
    WriterStateInv (WebCrawler.writer_run s msgs).1 ∧
    (∀ r ∈ (WebCrawler.writer_run s msgs).2, WebCrawler.journal_invariant r) := by
  induction msgs generalizing s with
  | nil =>
    exact ⟨h, by intro r hr; simp [WebCrawler.writer_run] at hr⟩
  | cons m ms ih =>
    have step := writer_process_inv s m h
    have rest := ih (WebCrawler.writer_process s m).1 step.1
    constructor
    · exact rest.1
    · intro r hr
      simp only [WebCrawler.writer_run, List.mem_append] at hr
      rcases hr with hr | hr
      · rcases ho : (WebCrawler.writer_process s m).2 with _ | w
        · rw [ho] at hr
          simp at hr
        · rw [ho] at hr
          simp only [Option.toList_some, List.mem_singleton] at hr
          subst hr
          exact step.2 r ho
      · exact rest.2 r hr

/-- C1: starting from the `initial_data` state, after the writer actor
processes any sequence of AddPdf and UpdateMetadata messages its
CrawlResults state satisfies total_pdfs_found = number of recorded PDFs,
verified_pdfs + failed_verifications ≤ total_pdfs_found, and no two
records share a URL; the same invariant holds of every document handed
to `write_results` (and hence of every on-disk document produced by its
temp-write, fsync, atomic-rename discipline); and an AddPdf whose URL is
already recorded leaves the writer state unchanged and writes nothing. -/
theorem C1_journal_invariant (ts : String) (verify : Bool)
    (msgs : List WebCrawler.WriterMessage) :
    WebCrawler.journal_invariant
      (WebCrawler.writer_task (WebCrawler.initial_data ts verify) msgs).1.results ∧
    (∀ doc ∈ (WebCrawler.writer_task (WebCrawler.initial_data ts verify) msgs).2,
      WebCrawler.journal_invariant doc) ∧
    (∀ (s : WebCrawler.WriterState) (p : WebCrawler.PdfInfo),
      s.discovered_urls.contains p.url = true →
      WebCrawler.writer_process s (.AddPdf p) = (s, none)) := by
  have hinit : WriterStateInv (WebCrawler.writer_init (WebCrawler.initial_data ts verify)) := by
    refine ⟨rfl, rfl, ?_, ?_⟩ <;> simp [WebCrawler.writer_init, WebCrawler.initial_data]
  have run := writer_run_inv msgs (WebCrawler.writer_init (WebCrawler.initial_data ts verify)) hinit
  refine ⟨?_, ?_, ?_⟩
  · have h := run.1
    obtain ⟨g1, g2, _, g4⟩ := h
    exact ⟨g1, le_of_eq g2, g4⟩
  · intro doc hdoc
    simp only [WebCrawler.writer_task, List.mem_cons] at hdoc
    rcases hdoc with hdoc | hdoc
    · subst hdoc
      exact ⟨rfl, by simp [WebCrawler.initial_data], by simp [WebCrawler.initial_data]⟩
    · exact run.2 doc hdoc
  · intro s p hdup
    have hm : p.url ∈ s.discovered_urls := by simpa using hdup
    simp [WebCrawler.writer_process, hm]

/-- C1 (witness): the invariant theorem at a concrete run in which the
same PDF is added twice and the metadata updated once: the duplicate add
changes nothing, and the initial document satisfies the invariant. -/
theorem C1_witness :
    WebCrawler.journal_invariant
      (WebCrawler.writer_task (WebCrawler.initial_data "t0" true)
        [WebCrawler.WriterMessage.AddPdf
          { url := "http://h/a.pdf", source_page := "http://h/", depth := 0, title := none,
            size_hint := none, content_type := none, content_length := none,
            discovered_at := "t1", verified := true },
         WebCrawler.WriterMessage.AddPdf
          { url := "http://h/a.pdf", source_page := "http://h/", depth := 0, title := none,
            size_hint := none, content_type := none, content_length := none,
            discovered_at := "t2", verified := false },
         WebCrawler.WriterMessage.UpdateMetadata 5 "completed"]).1.results ∧
    WebCrawler.journal_invariant (WebCrawler.initial_data "t0" true) := by
  constructor
  · exact (C1_journal_invariant "t0" true
      [WebCrawler.WriterMessage.AddPdf
        { url := "http://h/a.pdf", source_page := "http://h/", depth := 0, title := none,
          size_hint := none, content_type := none, content_length := none,
          discovered_at := "t1", verified := true },
       WebCrawler.WriterMessage.AddPdf
        { url := "http://h/a.pdf", source_page := "http://h/", depth := 0, title := none,
          size_hint := none, content_type := none, content_length := none,
          discovered_at := "t2", verified := false },
       WebCrawler.WriterMessage.UpdateMetadata 5 "completed"]).1
  · exact (C1_journal_invariant "t0" true []).2.1 (WebCrawler.initial_data "t0" true)
      (by simp [WebCrawler.writer_task, WebCrawler.writer_run])

end Spec2Proof
